import Mathlib

/-!
Shallow embedding of the krapper real-estate scraper (`scraper.py`,
`access_db.py`) and proofs about its specified properties.

The embedding models:
* `DatabaseManager.sanitize_input` / `insert_listing` (sqlite
  `INSERT OR IGNORE` with a `UNIQUE(title, link)` constraint) as a pure
  state-passing store;
* `send_notification` with its module-level `last_notification_time`
  throttle as a function of the previous timestamp, the current time,
  the new-listing list and the outcome of the external SMTP dispatch;
* the `Pavouk` spider's chained request flow (`start_requests` /
  `make_request` / `parse`, with `current_url_index` incremented only
  inside `parse`) as a recursion over the remaining site count, with
  per-site fetch outcomes supplied as a `Nat → Bool` oracle;
* `validate_urls` (URL regex, robots.txt line scan, `https://`-prefixed
  disallow check) over a robots environment mapping a host to the lines
  of a 200 response (`none` models a failed / non-200 robots fetch);
* the `parse` extraction pipeline (tag stripping, price parsing, price
  band filter, `urljoin` link resolution, store insertion).

Python strings are modelled as Lean `String`, manipulated through their
`.data` character lists so that every operation is structural and
kernel-computable; ASCII inputs are assumed (Python's `\w`, `.lower()`
and `.strip()` agree with the ASCII character predicates used here on
every string appearing in the pipeline's data).
-/

/-! ## Character-list string primitives (models of Python str operations) -/

/-- Model of Python `str.startswith`: the first string starts with the second. -/
def prefixOfChars : List Char → List Char → Bool
  | [], _ => true
  | _ :: _, [] => false
  | a :: as, b :: bs => a == b && prefixOfChars as bs

/-- `pyStartsWith s pre` models Python `s.startswith(pre)`. -/
def pyStartsWith (s pre : String) : Bool := prefixOfChars pre.data s.data

/-- Model of Python `sub in s` (substring containment). -/
def containsSubstr (s sub : String) : Bool :=
  (List.range (s.data.length + 1)).any (fun i => prefixOfChars sub.data (s.data.drop i))

/-- Model of Python `str.strip()`: drop leading and trailing whitespace. -/
def pyStrip (l : List Char) : List Char :=
  ((l.dropWhile Char.isWhitespace).reverse.dropWhile Char.isWhitespace).reverse

/-- Model of Python `line.split(' ')` (single-space separator, empties kept). -/
def splitOnSpace : List Char → List (List Char)
  | [] => [[]]
  | c :: rest =>
    match splitOnSpace rest with
    | [] => [[]]
    | h :: t => if c = ' ' then [] :: h :: t else (c :: h) :: t

/-- Model of Python `line.split(' ')[-1]` (the list is never empty). -/
def last_token (line : String) : String :=
  String.mk ((splitOnSpace line.data).getLastD [])

/-- A regex `\w` word character (ASCII: alphanumeric or underscore). -/
def isWordChar (c : Char) : Bool := c.isAlphanum || c = '_'

/-! ## DatabaseManager -/

/-- `DatabaseManager.sanitize_input`:
`re.sub(r'[^\w\s-]', '', data).strip().lower()` — keep only word
characters, whitespace and hyphens, strip surrounding whitespace,
lowercase. -/
def sanitize_input (s : String) : String :=
  String.mk ((pyStrip (s.data.filter
    (fun c => isWordChar c || c.isWhitespace || c = '-'))).map Char.toLower)

/-- A row of the sqlite `listings` table (`title`, `link`, `price`);
the autoincrement `id` column is irrelevant to every claim and omitted. -/
structure Listing where
  title : String
  link : String
  price : Int
deriving DecidableEq

/-- The observable state of a `DatabaseManager`: the persisted rows of the
`listings` table in insertion order, and the session-scoped
`new_listings` list. -/
structure DBState where
  listings : List Listing
  new_listings : List Listing
deriving DecidableEq

/-- `DatabaseManager.insert_listing`: guarded by Python truthiness
(`if title and link and price is not None`), sanitizes title and link,
then performs `INSERT OR IGNORE` under the `UNIQUE(title, link)`
constraint; on an actual insert (`cursor.rowcount > 0`) the row is also
appended to `new_listings`.  The returned `Bool` is the observable
"this call created a new record" (`rowcount > 0`). -/
def insert_listing (db : DBState) (title link : String) (price : Option Int) :
    DBState × Bool :=
  match price with
  | none => (db, false)
  | some p =>
    if title = "" || link = "" then (db, false)
    else
      let t := sanitize_input title
      let l := sanitize_input link
      if db.listings.any (fun r => r.title == t && r.link == l) then (db, false)
      else ({ listings := db.listings ++ [⟨t, l, p⟩],
              new_listings := db.new_listings ++ [⟨t, l, p⟩] }, true)

/-! ## Notifier (`send_notification` with global `last_notification_time`) -/

/-- Throttle window used by `send_notification` (`3600` seconds). -/
def THROTTLE_WINDOW : Nat := 3600

/-- What a call to `send_notification` did. -/
inductive NotifyOutcome
  | throttled
  | emptyNoop
  | sent
  | dispatchFailed
deriving DecidableEq

/-- `send_notification`, modelled as a function of the previous
`last_notification_time`, the current time, the new-listing list and the
outcome of the external SMTP dispatch (`dispatchOk`).  Mirrors the
source's statement order exactly: the throttle check comes first; then
`last_notification_time = time.time()` is assigned; only then is the
empty-list check made, and only then is dispatch attempted inside
`try/except smtplib.SMTPException` (a failure is logged, not raised).
Returns the new `last_notification_time` and the outcome. -/
def send_notification (lastSentAt now : Nat) (newListings : List Listing)
    (dispatchOk : Bool) : Nat × NotifyOutcome :=
  if now - lastSentAt < THROTTLE_WINDOW then (lastSentAt, .throttled)
  else if newListings.isEmpty then (now, .emptyNoop)
  else if dispatchOk then (now, .sent)
  else (now, .dispatchFailed)

/-! ## CrawlScheduler (`Pavouk` chained requests)

`start_requests` issues a request for the site at `current_url_index`
(initially `0`) when one exists.  `parse` — the callback of every
request — processes the response, increments `current_url_index`, and
yields the next request when sites remain.  No `errback` is installed,
so when a fetch fails `parse` never runs for that site: the cursor does
not advance and no further request is issued.  The recursion below is
over the number of sites not yet requested (`remaining = N - cursor`),
with `success i` the fetch outcome of site `i`. -/

/-- Indices of the sites for which a request is issued, starting from
cursor `i` with `r` sites remaining. -/
def crawl_requested_from (success : Nat → Bool) : Nat → Nat → List Nat
  | 0, _ => []
  | Nat.succ r, i =>
    if success i then i :: crawl_requested_from success r (i + 1) else [i]

/-- Indices of the sites whose response reaches `parse`, starting from
cursor `i` with `r` sites remaining. -/
def crawl_parsed_from (success : Nat → Bool) : Nat → Nat → List Nat
  | 0, _ => []
  | Nat.succ r, i =>
    if success i then i :: crawl_parsed_from success r (i + 1) else []

/-- The final value of `current_url_index`, starting from cursor `i`
with `r` sites remaining. -/
def crawl_final_cursor (success : Nat → Bool) : Nat → Nat → Nat
  | 0, i => i
  | Nat.succ r, i =>
    if success i then crawl_final_cursor success r (i + 1) else i

/-- Sites requested in a whole run over `n` admitted sites. -/
def crawl_requested (n : Nat) (success : Nat → Bool) : List Nat :=
  crawl_requested_from success n 0

/-- Sites parsed in a whole run over `n` admitted sites. -/
def crawl_parsed (n : Nat) (success : Nat → Bool) : List Nat :=
  crawl_parsed_from success n 0

/-! ## URLGate (`validate_urls`) -/

/-- The tail of the URL regex `^(?:http|https)://[^\s/$.?#].[^\s]*$`
after the scheme: one character outside `\s/$.?#`, one character other
than newline (`.`), then non-whitespace to the end. -/
def url_tail_ok : List Char → Bool
  | c1 :: c2 :: rest =>
    !(c1.isWhitespace || c1 = '/' || c1 = '$' || c1 = '.' || c1 = '?' || c1 = '#')
      && !(c2 = '\n') && rest.all (fun c => !c.isWhitespace)
  | _ => false

/-- `url_pattern.match(url)` for
`re.compile(r'^(?:http|https)://[^\s/$.?#].[^\s]*$', re.IGNORECASE)`. -/
def url_pattern_match (url : String) : Bool :=
  let dl := url.data.map Char.toLower
  if prefixOfChars "http://".data dl then url_tail_ok (url.data.drop 7)
  else if prefixOfChars "https://".data dl then url_tail_ok (url.data.drop 8)
  else false

/-- The characters after the `http://` / `https://` scheme prefix. -/
def afterScheme (url : String) : List Char :=
  if pyStartsWith url "http://" then url.data.drop 7
  else if pyStartsWith url "https://" then url.data.drop 8
  else url.data

/-- `urlparse(url).netloc` for the http/https URLs the pattern admits:
everything after the scheme up to the first `/`, `?` or `#`. -/
def netloc (url : String) : String :=
  String.mk ((afterScheme url).takeWhile (fun c => c ≠ '/' && c ≠ '?' && c ≠ '#'))

/-- The `Disallow:` paths `validate_urls` collects from the robots.txt
lines: lines starting with `Disallow:` that contain the user agent as a
substring, each contributing its last space-separated token
(`line.split(' ')[-1]`). -/
def disallowed_paths (lines : List String) (ua : String) : List String :=
  (lines.filter (fun line => pyStartsWith line "Disallow:" && containsSubstr line ua)).map
    last_token

/-- The robots.txt check of `validate_urls`, given the outcome of
`requests.get(f'https://{domain}/robots.txt')`: `none` models a network
failure or a non-200 status (URL excluded); `some lines` models a 200
response split into lines.  The URL survives iff none of the collected
disallowed paths `path` makes `url.startswith(f"https://{domain}{path}")`
true. -/
def robots_ok (ua url : String) : Option (List String) → Bool
  | none => false
  | some lines =>
    !((disallowed_paths lines ua).any
      (fun p => pyStartsWith url ("https://" ++ netloc url ++ p)))

/-- Whether `validate_urls` admits a single URL, given the robots
environment `env` (host ↦ lines of a 200 robots.txt response). -/
def validate_url_ok (env : String → Option (List String)) (ua url : String) : Bool :=
  url_pattern_match url && robots_ok ua url (env (netloc url))

/-- `validate_urls`: the admitted subset of the input URLs.  The source
accumulates admitted URLs into a Python `set` and returns `list(...)`;
membership is the observable modelled here. -/
def validate_urls (env : String → Option (List String)) (ua : String)
    (urls : List String) : List String :=
  urls.filter (validate_url_ok env ua)

/-! ## Extractor (`Pavouk.parse` per-item processing) -/

/-- Scan for the `>` closing a tag opened at the current position:
`none` when a newline intervenes or the list ends (regex `.` does not
match a newline, so no tag closes there). -/
def dropToGt : List Char → Option (List Char)
  | [] => none
  | c :: rest =>
    if c = '\n' then none
    else if c = '>' then some rest
    else dropToGt rest

/-- Fuel-indexed worker for `re.sub(r'<.*?>', '', s)`: each `<` that has
a closing `>` on the same line is removed together with the span up to
that first `>`; any other character is kept.  The fuel is the input
length, which bounds the number of steps. -/
def stripTagsAux : Nat → List Char → List Char
  | _, [] => []
  | 0, l => l
  | Nat.succ fuel, c :: rest =>
    if c = '<' then
      match dropToGt rest with
      | some rest2 => stripTagsAux fuel rest2
      | none => c :: stripTagsAux fuel rest
    else c :: stripTagsAux fuel rest

/-- `re.sub(r'<.*?>', '', s)`: remove every non-greedy single-line tag span. -/
def stripTags (s : String) : String :=
  String.mk (stripTagsAux s.data.length s.data)

/-- The common extraction step for title and price text:
`re.sub(r'<.*?>', '', element).strip() if element else fallback`.
Python truthiness makes `None` and the empty string both fall back. -/
def extract_text (element : Option String) (fallback : String) : String :=
  match element with
  | none => fallback
  | some t => if t = "" then fallback else String.mk (pyStrip (stripTags t).data)

/-- Modelled from the spec: `parse_price` delegates to the external
`price_parser` library (`Price.fromstring`), whose code is not part of
this repository.  Per the spec's PriceNormalizer contract it strips
currency symbols and thousands separators, interprets the remaining
numeric text as a monetary amount truncated to an integer unit, and
yields `none` when no numeric amount can be recovered.  Modelled as:
keep digits and the decimal point, read the digits before the point as
the integer amount, `none` when there are none. -/
def parse_price (s : String) : Option Int :=
  let cleaned := s.data.filter (fun c => c.isDigit || c = '.')
  let intPart := cleaned.takeWhile Char.isDigit
  if intPart.isEmpty then none
  else some (intPart.foldl (fun a c => a * 10 + Int.ofNat (c.toNat - 48)) 0)

/-- The scheme-and-host part of an http/https URL. -/
def schemeHost (url : String) : String :=
  if pyStartsWith url "http://" then "http://" ++ netloc url
  else if pyStartsWith url "https://" then "https://" ++ netloc url
  else url

/-- The path directory up to and including the last `/`. -/
def dirOf (path : List Char) : List Char :=
  (path.reverse.dropWhile (fun c => c ≠ '/')).reverse

/-- Modelled from the Python standard library's `urllib.parse.urljoin`
(an external collaborator) for the reference forms the pipeline
resolves: absolute references are returned as-is, network-path
references (`//…`) inherit the base scheme, path-absolute references
(`/…`) replace the whole path, and relative references replace the last
path segment of the base. -/
def urljoin (base ref : String) : String :=
  if ref = "" then base
  else if pyStartsWith ref "http://" || pyStartsWith ref "https://" then ref
  else if pyStartsWith ref "//" then
    (if pyStartsWith base "https://" then "https:" ++ ref else "http:" ++ ref)
  else if pyStartsWith ref "/" then schemeHost base ++ ref
  else
    let sh := schemeHost base
    let path := base.data.drop sh.data.length
    let d := dirOf path
    sh ++ String.mk (if d.isEmpty then ['/'] else d) ++ ref

/-- One matched listing-item node of a response, as the selectors see
it: the raw `title` and `price` css results (`none` when the selector
matched nothing) and the anchor `href`. -/
structure Item where
  title_element : Option String
  price_element : Option String
  href : String

/-- The per-item body of `Pavouk.parse`: extract the title (fallback
`"No title found"`) and the price text (fallback `"No price found"`),
parse the price, and when it is non-`None` and inside the inclusive
`[minP, maxP]` band resolve the link against the response URL and offer
the listing to the store; otherwise skip the item. -/
def process_item (minP maxP : Int) (pageUrl : String) (db : DBState)
    (item : Item) : DBState :=
  let title := extract_text item.title_element "No title found"
  let price_str := extract_text item.price_element "No price found"
  match parse_price price_str with
  | some p =>
    if minP ≤ p ∧ p ≤ maxP then
      (insert_listing db title (urljoin pageUrl item.href) (some p)).1
    else db
  | none => db

/-- The listing loop of `Pavouk.parse` over one response's matched
items. -/
def parse_response (minP maxP : Int) (pageUrl : String) (items : List Item)
    (db : DBState) : DBState :=
  items.foldl (process_item minP maxP pageUrl) db

/-! ## Helper lemmas -/

theorem prefixOfChars_iff_append (p s : List Char) :
    prefixOfChars p s = true ↔ ∃ t, s = p ++ t := by
  induction p generalizing s with
  | nil => simp [prefixOfChars]
  | cons a as ih =>
    cases s with
    | nil => simp [prefixOfChars]
    | cons b bs =>
      simp only [prefixOfChars, Bool.and_eq_true, beq_iff_eq, ih, List.cons_append,
        List.cons.injEq]
      constructor
      · rintro ⟨rfl, t, rfl⟩
        exact ⟨t, rfl, rfl⟩
      · rintro ⟨t, rfl, rfl⟩
        exact ⟨rfl, t, rfl⟩

/-- A URL starting with `http://` never starts with `https://` followed
by anything: the fifth characters differ. -/
theorem http_not_https (s t : String) (h : pyStartsWith s "http://" = true) :
    pyStartsWith s ("https://" ++ t) = false := by
  unfold pyStartsWith at h ⊢
  rcases (prefixOfChars_iff_append _ _).mp h with ⟨u, hu⟩
  have hdata : ("https://" ++ t).data = "https://".data ++ t.data := rfl
  rw [hdata, hu]
  rfl

/-! ## C9 — degenerate-input guard on insert -/

/-- C9 (confirmed): for every call to `insert_listing` with an empty
title, an empty link, or a `None` price, the store and the
`new_listings` list are unchanged, nothing is reported as new, and no
error is raised — the guard `if title and link and price is not None`
makes the call a silent no-op. -/
theorem C9_degenerate_insert (db : DBState) (title link : String)
    (price : Option Int) (h : title = "" ∨ link = "" ∨ price = none) :
    insert_listing db title link price = (db, false) := by
  rcases h with h | h | h
  · unfold insert_listing
    cases price with
    | none => rfl
    | some p => simp [h]
  · unfold insert_listing
    cases price with
    | none => rfl
    | some p => simp [h]
  · rw [h]
    rfl

theorem C9_witness :
    insert_listing ⟨[], []⟩ "" "https://a.example/x" (some 1200) = (⟨[], []⟩, false) :=
  C9_degenerate_insert ⟨[], []⟩ "" "https://a.example/x" (some 1200) (Or.inl rfl)

/-! ## C3 — notification on empty input -/

/-- C3 counterexample: with the throttle window elapsed
(`lastSentAt = 0`, `now = 3600`), a call with an empty new-listings list
dispatches nothing but *does* update the throttle timestamp to `now`,
because `last_notification_time = time.time()` is assigned before the
empty-list check — the claim says the timestamp is unchanged regardless
of elapsed time. -/
theorem C3_counterexample :
    (send_notification 0 3600 [] true).1 = 3600 ∧ ¬ ((send_notification 0 3600 [] true).1 = 0) := by
  constructor
  · rfl
  · decide

/-- C3 (amended): a call with an empty new-listings list never
dispatches (and never even attempts a dispatch), and the throttle
timestamp is unchanged when the call falls inside the throttle window —
but it is reset to `now` when the window has elapsed. -/
theorem C3_empty_noop (lastSentAt now : Nat) (ok : Bool) :
    (send_notification lastSentAt now [] ok).2 ≠ NotifyOutcome.sent
    ∧ (send_notification lastSentAt now [] ok).2 ≠ NotifyOutcome.dispatchFailed
    ∧ (send_notification lastSentAt now [] ok).1
        = (if now - lastSentAt < THROTTLE_WINDOW then lastSentAt else now) := by
  unfold send_notification
  by_cases h : now - lastSentAt < THROTTLE_WINDOW
  · simp [h]
  · simp [h, List.isEmpty]

/-! ## C4 — notification failure atomicity -/

/-- C4 counterexample: with the window elapsed (`lastSentAt = 0`,
`now = 3600`) and a non-empty list, a failed dispatch still moves the
throttle timestamp to `now` (it is assigned before the `try` block), so
`lastSentAt` is *not* left unchanged as the claim states. -/
theorem C4_counterexample :
    (send_notification 0 3600 [⟨"nice flat", "httpsaexamplex", 1200⟩] false).1 = 3600
    ∧ ¬ ((send_notification 0 3600 [⟨"nice flat", "httpsaexamplex", 1200⟩] false).1 = 0) := by
  constructor
  · rfl
  · decide

/-- C4 (amended): when the notifier attempts a dispatch (non-empty
listings, throttle window elapsed) and the external mail dispatch
fails, the failure is caught and logged (the call returns normally, the
run does not crash) — but `last_notification_time` has already been set
to the attempt time, so any retry within the next window is throttled
rather than immediate. -/
theorem C4_dispatch_failure (lastSentAt now : Nat) (ls : List Listing)
    (hne : ls ≠ []) (helapsed : THROTTLE_WINDOW ≤ now - lastSentAt) :
    send_notification lastSentAt now ls false = (now, NotifyOutcome.dispatchFailed)
    ∧ ∀ now2 ls2 ok2, now2 - now < THROTTLE_WINDOW →
        send_notification now now2 ls2 ok2 = (now, NotifyOutcome.throttled) := by
  constructor
  · unfold send_notification
    have h1 : ¬ (now - lastSentAt < THROTTLE_WINDOW) := by omega
    have h2 : ls.isEmpty = false := by
      cases ls with
      | nil => exact absurd rfl hne
      | cons a l => rfl
    simp [h1, h2]
  · intro now2 ls2 ok2 h
    unfold send_notification
    simp [h]

theorem C4_witness :
    send_notification 0 3600 [⟨"nice flat", "httpsaexamplex", 1200⟩] false
        = (3600, NotifyOutcome.dispatchFailed)
    ∧ ∀ now2 ls2 ok2, now2 - 3600 < THROTTLE_WINDOW →
        send_notification 3600 now2 ls2 ok2 = (3600, NotifyOutcome.throttled) :=
  C4_dispatch_failure 0 3600 [⟨"nice flat", "httpsaexamplex", 1200⟩]
    (by decide) (by decide)

/-! ## C5 — notification throttling -/

/-- C5 counterexample: `last_notification_time` is initialized to the
process start time (`time.time()` at module load).  With process start
at `1000`, two non-empty calls at `1010` and `1020` — separated by `10`,
less than the window — are *both* throttled: zero messages are
dispatched, not the "exactly one" the claim states for every such pair. -/
theorem C5_counterexample :
    send_notification 1000 1010 [⟨"nice flat", "httpsaexamplex", 1200⟩] true
        = (1000, NotifyOutcome.throttled)
    ∧ send_notification 1000 1020 [⟨"nice flat", "httpsaexamplex", 1200⟩] true
        = (1000, NotifyOutcome.throttled) := by
  constructor
  · rfl
  · rfl

/-- C5 (amended): provided the first of the two non-empty calls already
has the throttle window elapsed relative to the current
`last_notification_time` (in particular, it does not fall in the first
window after process start) and dispatch succeeds, the claim holds:
the first call dispatches and starts the window at its time `t1`; a
second call less than the window after `t1` is suppressed (exactly one
message), and a second call at least the window after `t1` dispatches
as well (both messages). -/
theorem C5_throttling (lastSentAt t1 t2 : Nat) (ls1 ls2 : List Listing)
    (h1 : ls1 ≠ []) (h2 : ls2 ≠ []) (helapsed : THROTTLE_WINDOW ≤ t1 - lastSentAt) :
    send_notification lastSentAt t1 ls1 true = (t1, NotifyOutcome.sent)
    ∧ (t2 - t1 < THROTTLE_WINDOW →
        send_notification (send_notification lastSentAt t1 ls1 true).1 t2 ls2 true
          = (t1, NotifyOutcome.throttled))
    ∧ (THROTTLE_WINDOW ≤ t2 - t1 →
        send_notification (send_notification lastSentAt t1 ls1 true).1 t2 ls2 true
          = (t2, NotifyOutcome.sent)) := by
  have hsend : send_notification lastSentAt t1 ls1 true = (t1, NotifyOutcome.sent) := by
    unfold send_notification
    have hnl : ¬ (t1 - lastSentAt < THROTTLE_WINDOW) := by omega
    have hne : ls1.isEmpty = false := by
      cases ls1 with
      | nil => exact absurd rfl h1
      | cons a l => rfl
    simp [hnl, hne]
  refine ⟨hsend, ?_, ?_⟩
  · intro hlt
    rw [hsend]
    unfold send_notification
    simp [hlt]
  · intro hge
    rw [hsend]
    unfold send_notification
    have hnl : ¬ (t2 - t1 < THROTTLE_WINDOW) := by omega
    have hne : ls2.isEmpty = false := by
      cases ls2 with
      | nil => exact absurd rfl h2
      | cons a l => rfl
    simp [hnl, hne]

theorem C5_witness :
    send_notification 0 3600 [⟨"nice flat", "httpsaexamplex", 1200⟩] true
        = (3600, NotifyOutcome.sent)
    ∧ (3610 - 3600 < THROTTLE_WINDOW →
        send_notification (send_notification 0 3600 [⟨"nice flat", "httpsaexamplex", 1200⟩] true).1
          3610 [⟨"cozy loft", "httpsbexampley", 1500⟩] true
          = (3600, NotifyOutcome.throttled))
    ∧ (THROTTLE_WINDOW ≤ 7300 - 3600 →
        send_notification (send_notification 0 3600 [⟨"nice flat", "httpsaexamplex", 1200⟩] true).1
          7300 [⟨"cozy loft", "httpsbexampley", 1500⟩] true
          = (7300, NotifyOutcome.sent)) := by
  have h := C5_throttling 0 3600 3610 [⟨"nice flat", "httpsaexamplex", 1200⟩]
    [⟨"cozy loft", "httpsbexampley", 1500⟩] (by decide) (by decide) (by decide)
  have h2 := C5_throttling 0 3600 7300 [⟨"nice flat", "httpsaexamplex", 1200⟩]
    [⟨"cozy loft", "httpsbexampley", 1500⟩] (by decide) (by decide) (by decide)
  exact ⟨h.1, h.2.1, h2.2.2⟩

/-! ## C2 — idempotent insert -/

/-- C2 (confirmed): for every (title, link, price) with non-empty title
and link whose sanitized key is not yet in the store, inserting it and
then inserting any cosmetic variant (possibly different punctuation or
case, sanitizing to the same key) yields exactly one stored record for
that key, the store is untouched by the second call, and only the first
call reports the record as newly inserted. -/
theorem C2_idempotent_insert (db : DBState) (t1 l1 t2 l2 : String) (p : Int)
    (ht1 : t1 ≠ "") (hl1 : l1 ≠ "") (ht2 : t2 ≠ "") (hl2 : l2 ≠ "")
    (hst : sanitize_input t2 = sanitize_input t1)
    (hsl : sanitize_input l2 = sanitize_input l1)
    (hfresh : ∀ r ∈ db.listings,
      ¬ (r.title = sanitize_input t1 ∧ r.link = sanitize_input l1)) :
    (insert_listing db t1 l1 (some p)).2 = true
    ∧ (insert_listing (insert_listing db t1 l1 (some p)).1 t2 l2 (some p)).2 = false
    ∧ (insert_listing (insert_listing db t1 l1 (some p)).1 t2 l2 (some p)).1
        = (insert_listing db t1 l1 (some p)).1
    ∧ ((insert_listing (insert_listing db t1 l1 (some p)).1 t2 l2 (some p)).1.listings.filter
        (fun r => r.title == sanitize_input t1 && r.link == sanitize_input l1)).length = 1 := by
  have hany : db.listings.any
      (fun r => r.title == sanitize_input t1 && r.link == sanitize_input l1) = false := by
    rw [List.any_eq_false]
    intro r hr
    simp only [Bool.and_eq_true, beq_iff_eq]
    exact fun h => hfresh r hr h
  have h1 : insert_listing db t1 l1 (some p)
      = ({ listings := db.listings ++ [⟨sanitize_input t1, sanitize_input l1, p⟩],
           new_listings := db.new_listings ++ [⟨sanitize_input t1, sanitize_input l1, p⟩] },
         true) := by
    unfold insert_listing
    simp [ht1, hl1, hany]
  have hany2 : (db.listings ++ [(⟨sanitize_input t1, sanitize_input l1, p⟩ : Listing)]).any
      (fun r => r.title == sanitize_input t2 && r.link == sanitize_input l2) = true := by
    rw [hst, hsl, List.any_append]
    simp
  have h2 : insert_listing
      ({ listings := db.listings ++ [⟨sanitize_input t1, sanitize_input l1, p⟩],
         new_listings := db.new_listings ++ [⟨sanitize_input t1, sanitize_input l1, p⟩] } : DBState)
      t2 l2 (some p)
      = ({ listings := db.listings ++ [⟨sanitize_input t1, sanitize_input l1, p⟩],
           new_listings := db.new_listings ++ [⟨sanitize_input t1, sanitize_input l1, p⟩] },
         false) := by
    unfold insert_listing
    simp only [ht2, hl2]
    simp [hany2]
  rw [h1]
  simp only [h2]
  refine ⟨trivial, trivial, trivial, ?_⟩
  have hfilter : db.listings.filter
      (fun r => r.title == sanitize_input t1 && r.link == sanitize_input l1) = [] := by
    rw [List.filter_eq_nil_iff]
    intro r hr
    simp only [Bool.and_eq_true, beq_iff_eq]
    exact fun h => hfresh r hr h
  rw [List.filter_append, hfilter]
  simp

theorem C2_witness :
    (insert_listing ⟨[], []⟩ "Nice Flat" "https://a.example/x" (some 1200)).2 = true
    ∧ (insert_listing (insert_listing ⟨[], []⟩ "Nice Flat" "https://a.example/x" (some 1200)).1
        "NICE FLAT!!" "HTTPS://a.example/x?" (some 1200)).2 = false
    ∧ (insert_listing (insert_listing ⟨[], []⟩ "Nice Flat" "https://a.example/x" (some 1200)).1
        "NICE FLAT!!" "HTTPS://a.example/x?" (some 1200)).1
        = (insert_listing ⟨[], []⟩ "Nice Flat" "https://a.example/x" (some 1200)).1
    ∧ ((insert_listing (insert_listing ⟨[], []⟩ "Nice Flat" "https://a.example/x" (some 1200)).1
        "NICE FLAT!!" "HTTPS://a.example/x?" (some 1200)).1.listings.filter
        (fun r => r.title == sanitize_input "Nice Flat"
          && r.link == sanitize_input "https://a.example/x")).length = 1 :=
  C2_idempotent_insert ⟨[], []⟩ "Nice Flat" "https://a.example/x"
    "NICE FLAT!!" "HTTPS://a.example/x?" 1200
    (by decide) (by decide) (by decide) (by decide)
    (by decide) (by decide) (by intro r hr; cases hr)

/-! ## C7 — sequential, exhaustive, non-repeating crawl -/

theorem crawl_all_success (r i : Nat) :
    crawl_requested_from (fun _ => true) r i = List.range' i r
    ∧ crawl_parsed_from (fun _ => true) r i = List.range' i r
    ∧ crawl_final_cursor (fun _ => true) r i = i + r := by
  induction r generalizing i with
  | zero => exact ⟨rfl, rfl, rfl⟩
  | succ r ih =>
    have h := ih (i + 1)
    refine ⟨?_, ?_, ?_⟩
    · show (if true then i :: crawl_requested_from (fun _ => true) r (i + 1) else [i])
        = List.range' i (r + 1)
      rw [if_pos rfl, h.1, List.range'_succ]
    · show (if true then i :: crawl_parsed_from (fun _ => true) r (i + 1) else [])
        = List.range' i (r + 1)
      rw [if_pos rfl, h.2.1, List.range'_succ]
    · show (if true then crawl_final_cursor (fun _ => true) r (i + 1) else i) = i + (r + 1)
      rw [if_pos rfl, h.2.2]
      omega

/-- C7 (confirmed): with every fetch succeeding, a run over `N` admitted
sites requests and parses exactly the sites `0, 1, …, N-1`, in input
order, each exactly once (the visit list has no duplicates); the cursor
ends at `N`; and at cursor `N` no further request is issued (the
terminal state). -/
theorem C7_sequential_crawl (urls : List String) :
    crawl_requested urls.length (fun _ => true) = List.range urls.length
    ∧ crawl_parsed urls.length (fun _ => true) = List.range urls.length
    ∧ (crawl_requested urls.length (fun _ => true)).Nodup
    ∧ crawl_final_cursor (fun _ => true) urls.length 0 = urls.length
    ∧ crawl_requested_from (fun _ => true) 0 urls.length = [] := by
  have h := crawl_all_success urls.length 0
  have hr : crawl_requested urls.length (fun _ => true) = List.range urls.length := by
    rw [crawl_requested, h.1, List.range_eq_range']
  refine ⟨hr, ?_, ?_, ?_, rfl⟩
  · rw [crawl_parsed, h.2.1, List.range_eq_range']
  · rw [hr]
    exact List.nodup_range _
  · rw [h.2.2]
    omega

/-! ## C6 — fetch-failure isolation -/

theorem crawl_first_failure (success : Nat → Bool) (i : Nat)
    (hfail : success i = false) :
    ∀ r k, k ≤ i → i < k + r → (∀ j, k ≤ j → j < i → success j = true) →
    crawl_requested_from success r k = List.range' k (i - k + 1)
    ∧ crawl_parsed_from success r k = List.range' k (i - k)
    ∧ crawl_final_cursor success r k = i := by
  intro r
  induction r with
  | zero => intro k hk hlt _; omega
  | succ r ih =>
    intro k hk hlt hprev
    by_cases hki : k = i
    · subst hki
      refine ⟨?_, ?_, ?_⟩
      · show (if success k then k :: crawl_requested_from success r (k + 1) else [k])
          = List.range' k (k - k + 1)
        rw [hfail]
        simp [List.range'_succ]
      · show (if success k then k :: crawl_parsed_from success r (k + 1) else [])
          = List.range' k (k - k)
        rw [hfail]
        simp
      · show (if success k then crawl_final_cursor success r (k + 1) else k) = k
        rw [hfail]
        rfl
    · have hklt : k < i := by omega
      have hsk : success k = true := hprev k (Nat.le_refl k) hklt
      have hih := ih (k + 1) (by omega) (by omega)
        (fun j hj hji => hprev j (by omega) hji)
      have harith : i - (k + 1) + 1 = i - k := by omega
      refine ⟨?_, ?_, ?_⟩
      · show (if success k then k :: crawl_requested_from success r (k + 1) else [k])
          = List.range' k (i - k + 1)
        rw [hsk, if_pos rfl, hih.1, harith]
        have : i - k + 1 = (i - k) + 1 := rfl
        rw [this, List.range'_succ]
      · show (if success k then k :: crawl_parsed_from success r (k + 1) else [])
          = List.range' k (i - k)
        rw [hsk, if_pos rfl, hih.2.1]
        have : i - k = (i - (k + 1)) + 1 := by omega
        rw [this, List.range'_succ]
      · show (if success k then crawl_final_cursor success r (k + 1) else k) = i
        rw [hsk, if_pos rfl, hih.2.2]

/-- C6 counterexample: two admitted sites, the fetch of site `0` fails
(`success 0 = false`).  Only site `0` is ever requested — site `1` is
never fetched, its listings are skipped, and the run simply ends,
contradicting the claim that the scheduler advances so the remaining
sites are still fetched. -/
theorem C6_counterexample :
    crawl_requested 2 (fun j => decide (0 < j)) = [0]
    ∧ ¬ (1 ∈ crawl_requested 2 (fun j => decide (0 < j)))
    ∧ crawl_parsed 2 (fun j => decide (0 < j)) = []
    ∧ crawl_final_cursor (fun j => decide (0 < j)) 2 0 = 0 := by
  refine ⟨rfl, ?_, rfl, rfl⟩
  decide

/-- C6 (amended): when the fetch of admitted site `i` fails (all earlier
fetches succeeding), `parse` never runs for it: the failed response is
only logged by the framework, site `i`'s listings are skipped, the
cursor stays at `i`, and — because the next request is only issued from
inside `parse` — no further request is made: the sites after `i` are
*not* fetched in this run (the run ends without crashing). -/
theorem C6_fetch_failure (success : Nat → Bool) (n i : Nat)
    (hin : i < n) (hprev : ∀ j, j < i → success j = true)
    (hfail : success i = false) :
    crawl_requested n success = List.range (i + 1)
    ∧ crawl_parsed n success = List.range i
    ∧ crawl_final_cursor success n 0 = i := by
  have h := crawl_first_failure success i hfail n 0 (Nat.zero_le i) (by omega)
    (fun j _ hji => hprev j hji)
  refine ⟨?_, ?_, h.2.2⟩
  · rw [crawl_requested, h.1, Nat.sub_zero, List.range_eq_range']
  · rw [crawl_parsed, h.2.1, Nat.sub_zero, List.range_eq_range']

theorem C6_witness :
    crawl_requested 3 (fun j => decide (j < 1)) = List.range 2
    ∧ crawl_parsed 3 (fun j => decide (j < 1)) = List.range 1
    ∧ crawl_final_cursor (fun j => decide (j < 1)) 3 0 = 1 :=
  C6_fetch_failure (fun j => decide (j < 1)) 3 1 (by decide)
    (by decide) (by decide)

/-! ## C10 — scheme asymmetry in the URL gate -/

/-- C10 (confirmed): for every syntactically valid URL whose scheme is
literally `http` (not `https`) and whose host's robots.txt is reachable
with status 200, the disallow check of `validate_urls` can never match —
every comparison prefix starts with `https://` while the URL starts with
`http://` — so the URL is admitted no matter what the robots.txt lines
disallow for the configured user agent. -/
theorem C10_http_bypass (env : String → Option (List String)) (ua url : String)
    (lines : List String)
    (hpat : url_pattern_match url = true)
    (hhttp : pyStartsWith url "http://" = true)
    (henv : env (netloc url) = some lines) :
    validate_url_ok env ua url = true := by
  unfold validate_url_ok
  rw [hpat, henv, Bool.true_and]
  show (!((disallowed_paths lines ua).any
    (fun p => pyStartsWith url ("https://" ++ netloc url ++ p)))) = true
  have hany : (disallowed_paths lines ua).any
      (fun p => pyStartsWith url ("https://" ++ netloc url ++ p)) = false := by
    rw [List.any_eq_false]
    intro p _
    have h := http_not_https url (netloc url ++ p) hhttp
    rw [← String.append_assoc] at h
    simp [h]
  rw [hany]
  rfl

theorem C10_witness :
    validate_url_ok
      (fun h => if h = "a.example" then some ["Disallow: bot /private"] else none)
      "bot" "http://a.example/private/page" = true :=
  C10_http_bypass
    (fun h => if h = "a.example" then some ["Disallow: bot /private"] else none)
    "bot" "http://a.example/private/page" ["Disallow: bot /private"]
    (by decide) (by decide) (by decide)

/-! ## C8 — robots exclusion -/

/-- C8 counterexample: two syntactically valid URLs on host `a.example`
whose robots.txt (line `"Disallow: bot /private"`, matched by the
source's line scan for user agent `"bot"`: it starts with `Disallow:`,
contains the agent, and its last space-separated token is the path
`/private`) disallows the first URL's path `/private/page` and not the
second's `/ok` — yet with the `http` scheme *both* URLs are admitted,
because the disallow comparison prefixes paths with `https://`; the
claim that `admit` returns only the allowed URL fails. -/
theorem C8_counterexample :
    disallowed_paths ["Disallow: bot /private"] "bot" = ["/private"]
    ∧ validate_urls
        (fun h => if h = "a.example" then some ["Disallow: bot /private"] else none)
        "bot" ["http://a.example/private/page", "http://a.example/ok"]
        = ["http://a.example/private/page", "http://a.example/ok"] := by
  constructor
  · rfl
  · rfl

/-- C8 (amended): restricted to `https` URLs the claim holds — for two
syntactically valid URLs on the same host whose reachable robots.txt
contains a `Disallow:` line matched by the source's scan (starts with
`Disallow:`, contains the configured user agent, last space-separated
token `p`), where the first URL falls under the `https://{host}{p}`
prefix and the second falls under no collected disallowed prefix,
`validate_urls` admits only the second. -/
theorem C8_robots_exclusion_https (env : String → Option (List String))
    (ua host line p u1 u2 : String) (lines : List String)
    (henv : env host = some lines)
    (hn1 : netloc u1 = host) (hn2 : netloc u2 = host)
    (hp1 : url_pattern_match u1 = true) (hp2 : url_pattern_match u2 = true)
    (hline : line ∈ lines)
    (hdis : pyStartsWith line "Disallow:" = true)
    (hua : containsSubstr line ua = true)
    (htok : last_token line = p)
    (hu1 : pyStartsWith u1 ("https://" ++ host ++ p) = true)
    (hu2 : ∀ q ∈ disallowed_paths lines ua,
      pyStartsWith u2 ("https://" ++ host ++ q) = false) :
    validate_url_ok env ua u1 = false
    ∧ validate_url_ok env ua u2 = true
    ∧ validate_urls env ua [u1, u2] = [u2] := by
  have hmem : p ∈ disallowed_paths lines ua := by
    unfold disallowed_paths
    refine List.mem_map.mpr ⟨line, List.mem_filter.mpr ⟨hline, ?_⟩, htok⟩
    rw [hdis, hua]
    rfl
  have hok1 : validate_url_ok env ua u1 = false := by
    unfold validate_url_ok
    rw [hp1, Bool.true_and, hn1, henv]
    show (!((disallowed_paths lines ua).any
      (fun q => pyStartsWith u1 ("https://" ++ netloc u1 ++ q)))) = false
    have hany : (disallowed_paths lines ua).any
        (fun q => pyStartsWith u1 ("https://" ++ netloc u1 ++ q)) = true := by
      rw [List.any_eq_true]
      refine ⟨p, hmem, ?_⟩
      rw [hn1]
      exact hu1
    rw [hany]
    rfl
  have hok2 : validate_url_ok env ua u2 = true := by
    unfold validate_url_ok
    rw [hp2, Bool.true_and, hn2, henv]
    show (!((disallowed_paths lines ua).any
      (fun q => pyStartsWith u2 ("https://" ++ netloc u2 ++ q)))) = true
    have hany : (disallowed_paths lines ua).any
        (fun q => pyStartsWith u2 ("https://" ++ netloc u2 ++ q)) = false := by
      rw [List.any_eq_false]
      intro q hq
      rw [hn2]
      simp [hu2 q hq]
    rw [hany]
    rfl
  refine ⟨hok1, hok2, ?_⟩
  unfold validate_urls
  rw [List.filter_cons_of_neg, List.filter_cons_of_pos, List.filter_nil]
  · rw [hok2]
  · rw [hok1]
    exact Bool.false_ne_true

theorem C8_witness :
    validate_url_ok
        (fun h => if h = "a.example" then some ["Disallow: bot /private"] else none)
        "bot" "https://a.example/private/page" = false
    ∧ validate_url_ok
        (fun h => if h = "a.example" then some ["Disallow: bot /private"] else none)
        "bot" "https://a.example/ok" = true
    ∧ validate_urls
        (fun h => if h = "a.example" then some ["Disallow: bot /private"] else none)
        "bot" ["https://a.example/private/page", "https://a.example/ok"]
        = ["https://a.example/ok"] :=
  C8_robots_exclusion_https
    (fun h => if h = "a.example" then some ["Disallow: bot /private"] else none)
    "bot" "a.example" "Disallow: bot /private" "/private"
    "https://a.example/private/page" "https://a.example/ok"
    ["Disallow: bot /private"]
    (by decide) (by decide) (by decide) (by decide) (by decide)
    (by decide) (by decide) (by decide) (by decide) (by decide) (by decide)

/-! ## C1 — end-to-end pipeline example -/

/-- The page of the spec's end-to-end example: one matched item titled
`"Nice Flat"`, price text `"$1,200"`, relative link `"/x"`. -/
def examplePage : List Item := [⟨some "Nice Flat", some "$1,200", "/x"⟩]

/-- The result of crawling the example page at base
`"https://a.example/list"` under price band `[1000, 2000]` against an
empty store. -/
def exampleRun : DBState :=
  parse_response 1000 2000 "https://a.example/list" examplePage ⟨[], []⟩

/-- C1 counterexample: the claim's stored record is
`{title: "nice flat", link: "https://a.example/x", price: 1200}`, but
`insert_listing` sanitizes the *link* with the same punctuation-stripping
rule as the title before storing, so the record actually stored carries
link `"httpsaexamplex"`, not `"https://a.example/x"`. -/
theorem C1_counterexample :
    exampleRun.listings ≠ [⟨"nice flat", "https://a.example/x", 1200⟩]
    ∧ exampleRun.listings.map Listing.link = ["httpsaexamplex"] := by
  constructor
  · decide
  · rfl

/-- C1 (amended): crawling the example page (one item titled
`"Nice Flat"`, price text `"$1,200"`, relative link `"/x"` resolved
against base `"https://a.example/list"`) under price band `[1000, 2000]`
stores exactly the record
`{title: "nice flat", link: "httpsaexamplex", price: 1200}` — title and
resolved link both sanitized by the identity-key rule — reports it as
newly inserted, and re-running the identical crawl against the resulting
store inserts nothing new on the second pass. -/
theorem C1_end_to_end :
    exampleRun.listings = [⟨"nice flat", "httpsaexamplex", 1200⟩]
    ∧ exampleRun.new_listings = [⟨"nice flat", "httpsaexamplex", 1200⟩]
    ∧ (parse_response 1000 2000 "https://a.example/list" examplePage
        ⟨exampleRun.listings, []⟩).listings = exampleRun.listings
    ∧ (parse_response 1000 2000 "https://a.example/list" examplePage
        ⟨exampleRun.listings, []⟩).new_listings = [] := by
  refine ⟨rfl, rfl, rfl, rfl⟩
